import Mathlib

/-!
Shallow embedding of `src/backend/app.py` (LearnSphere backend).

The backend is a small HTTP service with two POST routes:
* `/text-file/` — accepts a `prompt` form field and an uploaded `file`;
  saves the upload under `temp_uploads/<filename>`, converts it to markdown
  with an external converter (docling), sends the prompt combined with the
  extracted text to a local model (ollama), returns `{"solution": s}`, and
  in a `finally` block deletes the temporary file and removes the scratch
  directory when empty.
* `/text/` — accepts a `prompt` form field and sends it directly to the
  model, returning `{"solution": s}`; its model call is not wrapped in a
  try/except, so a model failure surfaces as an unhandled exception.

The embedding threads an explicit state: the scratch directory (`temp_uploads`)
with its files, plus an event log recording every filesystem operation and
every external call, so that frame properties and call-shape properties can
be stated.  External effects (the converter, the model endpoint, and the
possibility that the temporary-file write raises) are oracles.
-/

namespace LearnSphere

/-- A chat message as sent to the model endpoint: a role and a content string
(`{'role': ..., 'content': ...}` in the source). -/
structure Message where
  role : String
  content : String
deriving DecidableEq, Repr

/-- State of the scratch directory `temp_uploads`: whether the directory
exists on disk, and its files as an association list from filename to byte
content. -/
structure ScratchDir where
  present : Bool
  files : List (String × List Nat)
deriving DecidableEq, Repr

/-- One observable operation performed by a handler: a filesystem operation on
the scratch directory, a converter call, or a chat call to the model. -/
inductive Event where
  | mkdirEv : Event
  | writeEv : String → List Nat → Event
  | unlinkEv : String → Event
  | rmdirEv : Event
  | convertEv : String → Event
  | chatEv : String → List Message → Event
deriving DecidableEq, Repr

/-- Whether an event is a filesystem operation (as opposed to an external
converter or model call). -/
def Event.isFs : Event → Bool
  | Event.mkdirEv => true
  | Event.writeEv _ _ => true
  | Event.unlinkEv _ => true
  | Event.rmdirEv => true
  | Event.convertEv _ => false
  | Event.chatEv _ _ => false

/-- Full interpreter state: the scratch directory plus the log of events
performed so far. -/
structure St where
  fs : ScratchDir
  events : List Event
deriving DecidableEq, Repr

/-- The empty starting state: no scratch directory, no files, no events. -/
def initSt : St := { fs := { present := false, files := [] }, events := [] }

/-- Look a filename up in the scratch directory's association list. -/
def lookupFile (files : List (String × List Nat)) (name : String) :
    Option (List Nat) :=
  (files.find? (fun p => p.1 == name)).map Prod.snd

/-- `temp_dir.mkdir(exist_ok=True)`: ensure the scratch directory exists,
keeping any files already in it. -/
def mkdirExistOk (s : St) : St :=
  { fs := { present := true, files := s.fs.files },
    events := s.events ++ [Event.mkdirEv] }

/-- `with temp_file_path.open("wb") as buffer: shutil.copyfileobj(...)`:
write the uploaded bytes to `temp_uploads/<name>`, truncating any existing
file of that name. -/
def writeFile (s : St) (name : String) (bytes : List Nat) : St :=
  { fs := { present := s.fs.present,
            files := s.fs.files.filter (fun p => p.1 != name) ++ [(name, bytes)] },
    events := s.events ++ [Event.writeEv name bytes] }

/-- `if temp_file_path.exists(): temp_file_path.unlink()`. -/
def unlinkIfExists (s : St) (name : String) : St :=
  if (lookupFile s.fs.files name).isSome then
    { fs := { present := s.fs.present,
              files := s.fs.files.filter (fun p => p.1 != name) },
      events := s.events ++ [Event.unlinkEv name] }
  else s

/-- `if temp_dir.exists() and not any(temp_dir.iterdir()): temp_dir.rmdir()`. -/
def rmdirIfEmpty (s : St) : St :=
  if s.fs.present = true ∧ s.fs.files = [] then
    { fs := { present := false, files := [] },
      events := s.events ++ [Event.rmdirEv] }
  else s

/-- The `finally` block of `text_file_endpoint`: delete the temporary file if
present, then remove the scratch directory if it is empty. -/
def cleanup (s : St) (name : String) : St :=
  rmdirIfEmpty (unlinkIfExists s name)

/-- External effects, fixed per request: the converter's behavior on a path,
the model endpoint's behavior on a (model, messages) request, and whether the
temporary-file write raises an OS error. -/
structure Oracles where
  convert : String → Except String String
  chat : String → List Message → Except String String
  writeErr : Option String

/-- The scratch directory name, `temp_uploads` in the source. -/
def tempDirName : String := "temp_uploads"

/-- The fixed default model identifier `gemma3n:e2b`. -/
def defaultModel : String := "gemma3n:e2b"

/-- The whitespace that the f-string in `generate_text_file` places before the
user prompt. -/
def promptHeader : String := "\n        "

/-- The fixed delimiter the f-string places between the user prompt and the
extracted document text. -/
def docDelimiter : String := "\n\n        --- Document Content ---\n        "

/-- The whitespace the f-string places after the extracted document text. -/
def promptTrailer : String := "\n        "

/-- `full_prompt` as built by the f-string in `generate_text_file`. -/
def fullPrompt (user_prompt text : String) : String :=
  promptHeader ++ user_prompt ++ docDelimiter ++ text ++ promptTrailer

/-- An HTTP response as seen by the client: a 200 JSON object, an
`HTTPException(status, detail)`, a framework-level 422 validation failure, or
an unhandled exception surfacing as the framework's generic 500. -/
inductive Response where
  | json : List (String × String) → Response
  | httpException : Nat → String → Response
  | validationError : Response
  | serverError : Response
deriving DecidableEq, Repr

/-- The HTTP status code of a response. -/
def Response.status : Response → Nat
  | Response.json _ => 200
  | Response.httpException st _ => st
  | Response.validationError => 422
  | Response.serverError => 500

/-- The `detail` string of a response, when the response carries one.  An
unhandled exception is rendered by the framework as the fixed text
`Internal Server Error`. -/
def Response.detail : Response → Option String
  | Response.json _ => none
  | Response.httpException _ d => some d
  | Response.validationError => some "Field required"
  | Response.serverError => some "Internal Server Error"

/-- `extract_markdown_from_pdf`: calls the external converter on the path; on
success returns the markdown string, on any converter exception raises
`HTTPException(500, f"Error processing PDF with docling: {e}")`. -/
def extract_markdown_from_pdf (o : Oracles) (s : St) (pdf_path : String) :
    Except (Nat × String) String × St :=
  let s1 : St := { fs := s.fs, events := s.events ++ [Event.convertEv pdf_path] }
  match o.convert pdf_path with
  | Except.ok md => (Except.ok md, s1)
  | Except.error e =>
      (Except.error (500, "Error processing PDF with docling: " ++ e), s1)

/-- `generate_text_file(text, user_prompt, model)`: builds the combined
prompt, sends a single user-role message to the model, and returns the
assistant content; on any exception raises
`HTTPException(500, f"Error interacting with Ollama: {e}")`.  The source's
default for `model` is `defaultModel`. -/
def generate_text_file (o : Oracles) (s : St) (text user_prompt model_id : String) :
    Except (Nat × String) String × St :=
  let messages : List Message := [Message.mk "user" (fullPrompt user_prompt text)]
  let s1 : St := { fs := s.fs, events := s.events ++ [Event.chatEv model_id messages] }
  match o.chat model_id messages with
  | Except.ok r => (Except.ok r, s1)
  | Except.error e =>
      (Except.error (500, "Error interacting with Ollama: " ++ e), s1)

/-- The `/text-file/` handler `text_file_endpoint`: make the scratch
directory, then inside `try`: write the upload, convert it, call the model,
return `{"solution": s}`; the `finally` block always runs `cleanup`.  A
raised `HTTPException` becomes a response with its status and detail; an OS
error from the write propagates unhandled (generic 500). -/
def text_file_endpoint (o : Oracles) (prompt filename : String)
    (bytes : List Nat) (s : St) : Response × St :=
  let s1 := mkdirExistOk s
  match o.writeErr with
  | some _ => (Response.serverError, cleanup s1 filename)
  | none =>
    let s2 := writeFile s1 filename bytes
    match extract_markdown_from_pdf o s2 (tempDirName ++ "/" ++ filename) with
    | (Except.error ed, s3) =>
        (Response.httpException ed.1 ed.2, cleanup s3 filename)
    | (Except.ok md, s3) =>
      match generate_text_file o s3 md prompt defaultModel with
      | (Except.error ed, s4) =>
          (Response.httpException ed.1 ed.2, cleanup s4 filename)
      | (Except.ok sol, s4) =>
          (Response.json [("solution", sol)], cleanup s4 filename)

/-- The `/text/` handler `text_endpoint`: sends the prompt as the sole
user-role message to the model `gemma3n:e2b` and returns `{"solution": s}`.
The model call is not wrapped in try/except, so a model failure propagates
as an unhandled exception (generic 500). -/
def text_endpoint (o : Oracles) (prompt : String) (s : St) : Response × St :=
  let messages : List Message := [Message.mk "user" prompt]
  let s1 : St := { fs := s.fs, events := s.events ++ [Event.chatEv "gemma3n:e2b" messages] }
  match o.chat "gemma3n:e2b" messages with
  | Except.ok content => (Response.json [("solution", content)], s1)
  | Except.error _ => (Response.serverError, s1)

/-- A parsed multipart form request: its plain string fields and, when a file
part named `file` is present, that file's filename and bytes. -/
structure FormRequest where
  fields : List (String × String)
  fileField : Option (String × List Nat)
deriving DecidableEq, Repr

/-- The two routes of the service. -/
inductive Route where
  | textFile : Route
  | text : Route
deriving DecidableEq, Repr

/-- Modelled from the spec: the framework-level request validation performed
by FastAPI before a handler runs is not part of `src/backend/app.py` (the
source only declares `prompt: str = Form(...)` and `file: UploadFile =
File(...)` as required, with no default).  Per the spec, a request missing a
required field is rejected with a 422 unprocessable-entity response and the
handler is never invoked; otherwise the handler runs on the supplied
values. -/
def dispatch (o : Oracles) (r : Route) (req : FormRequest) (s : St) :
    Response × St :=
  match r with
  | Route.text =>
    match req.fields.find? (fun p => p.1 == "prompt") with
    | none => (Response.validationError, s)
    | some pr => text_endpoint o pr.2 s
  | Route.textFile =>
    match req.fields.find? (fun p => p.1 == "prompt"), req.fileField with
    | none, _ => (Response.validationError, s)
    | some _, none => (Response.validationError, s)
    | some pr, some f => text_file_endpoint o pr.2 f.1 f.2 s

/-- An oracle on which every external call succeeds: the converter yields a
fixed markdown text and the model answers `4`. -/
def okOracles : Oracles :=
  { convert := fun _ => Except.ok "What is 2+2?",
    chat := fun _ _ => Except.ok "4",
    writeErr := none }

/-- An oracle on which the model endpoint is unreachable: every chat call
fails with `connection refused`. -/
def refusedOracles : Oracles :=
  { convert := fun _ => Except.ok "doc",
    chat := fun _ _ => Except.error "connection refused",
    writeErr := none }

/-- An oracle on which the converter fails on every input. -/
def convFailOracles : Oracles :=
  { convert := fun _ => Except.error "Invalid PDF header",
    chat := fun _ _ => Except.ok "4",
    writeErr := none }

/-- A concrete scratch-directory state holding another request's file
`other.pdf` next to this request's file `mine.pdf`. -/
def twoFileSt : St :=
  { fs := { present := true,
            files := [("other.pdf", [5]), ("mine.pdf", [1])] },
    events := [] }

/-- A concrete scratch-directory state holding only this request's file. -/
def oneFileSt : St :=
  { fs := { present := true, files := [("mine.pdf", [1])] }, events := [] }

/-! ## Helper lemmas -/

theorem lookupFile_filter_self (files : List (String × List Nat)) (name : String) :
    lookupFile (files.filter (fun p => p.1 != name)) name = none := by
  induction files with
  | nil => rfl
  | cons hd tl ih =>
    by_cases h : hd.1 = name
    · have hb1 : (hd.1 != name) = false := by simp [h]
      simp only [List.filter_cons, hb1, Bool.false_eq_true, if_neg, reduceIte]
      exact ih
    · have hb1 : (hd.1 != name) = true := by simp [h]
      have hb2 : (hd.1 == name) = false := by simp [h]
      simp only [List.filter_cons, hb1, if_pos, reduceIte, lookupFile,
        List.find?_cons, hb2] at ih ⊢
      exact ih

theorem lookupFile_filter_ne (files : List (String × List Nat)) (name n : String)
    (hn : n ≠ name) :
    lookupFile (files.filter (fun p => p.1 != name)) n = lookupFile files n := by
  induction files with
  | nil => rfl
  | cons hd tl ih =>
    by_cases h : hd.1 = name
    · have hb1 : (hd.1 != name) = false := by simp [h]
      have hb2 : (hd.1 == n) = false := by
        have : ¬ hd.1 = n := fun hc => hn (hc ▸ h)
        simp [this]
      simp only [List.filter_cons, hb1, Bool.false_eq_true, if_neg, reduceIte,
        lookupFile, List.find?_cons, hb2] at ih ⊢
      exact ih
    · by_cases h2 : hd.1 = n
      · have hb1 : (hd.1 != name) = true := by simp [h]
        have hb2 : (hd.1 == n) = true := by simp [h2]
        simp [List.filter_cons, hb1, lookupFile, List.find?_cons, hb2]
      · have hb1 : (hd.1 != name) = true := by simp [h]
        have hb2 : (hd.1 == n) = false := by simp [h2]
        simp only [List.filter_cons, hb1, if_pos, reduceIte, lookupFile,
          List.find?_cons, hb2] at ih ⊢
        exact ih

theorem unlinkIfExists_lookup_self (s : St) (name : String) :
    lookupFile (unlinkIfExists s name).fs.files name = none := by
  unfold unlinkIfExists
  by_cases h : (lookupFile s.fs.files name).isSome
  · simp [h, lookupFile_filter_self]
  · simp only [h, if_false, Bool.false_eq_true, if_neg, reduceIte]
    exact Option.not_isSome_iff_eq_none.mp h

theorem unlinkIfExists_present (s : St) (name : String) :
    (unlinkIfExists s name).fs.present = s.fs.present := by
  unfold unlinkIfExists
  by_cases h : (lookupFile s.fs.files name).isSome <;> simp [h]

theorem cleanup_lookup_self (s : St) (name : String) :
    lookupFile (cleanup s name).fs.files name = none := by
  unfold cleanup rmdirIfEmpty
  by_cases h : (unlinkIfExists s name).fs.present = true ∧
      (unlinkIfExists s name).fs.files = []
  · simp [h, lookupFile]
  · simp [h, unlinkIfExists_lookup_self]

theorem cleanup_present_spec (s : St) (name : String) (hp : s.fs.present = true) :
    (cleanup s name).fs.files = [] → (cleanup s name).fs.present = false := by
  unfold cleanup rmdirIfEmpty
  have hup : (unlinkIfExists s name).fs.present = true := by
    rw [unlinkIfExists_present]; exact hp
  by_cases h : (unlinkIfExists s name).fs.present = true ∧
      (unlinkIfExists s name).fs.files = []
  · simp [h]
  · simp only [h, if_neg, reduceIte]
    intro hfiles
    exact absurd ⟨hup, hfiles⟩ h

theorem cleanup_spec (s : St) (name : String) (hp : s.fs.present = true) :
    lookupFile (cleanup s name).fs.files name = none ∧
    ((cleanup s name).fs.files = [] → (cleanup s name).fs.present = false) :=
  ⟨cleanup_lookup_self s name, cleanup_present_spec s name hp⟩

/-! ## Claims -/

/-- C1: for every `/text-file/` request on which the temporary-file write, the
document conversion, and the model call all succeed, the handler returns the
JSON object `{"solution": s}` with `s` the assistant content returned by the
model call, and the request's temporary file no longer exists afterwards. -/
theorem text_file_success_response (o : Oracles) (prompt filename : String)
    (bytes : List Nat) (s : St) (md sol : String)
    (hw : o.writeErr = none)
    (hc : o.convert (tempDirName ++ "/" ++ filename) = Except.ok md)
    (hm : o.chat defaultModel [Message.mk "user" (fullPrompt prompt md)] = Except.ok sol) :
    (text_file_endpoint o prompt filename bytes s).1 =
      Response.json [("solution", sol)] ∧
    lookupFile (text_file_endpoint o prompt filename bytes s).2.fs.files filename = none := by
  refine ⟨?_, ?_⟩
  · simp only [text_file_endpoint, extract_markdown_from_pdf, generate_text_file,
      hw, hc, hm]
  · simp only [text_file_endpoint, extract_markdown_from_pdf, generate_text_file,
      hw, hc, hm]
    exact cleanup_lookup_self _ _

/-- Witness for C1 at a concrete successful request. -/
theorem text_file_success_response_witness :
    (text_file_endpoint okOracles "Solve" "hw.pdf" [1, 2] initSt).1 =
      Response.json [("solution", "4")] ∧
    lookupFile (text_file_endpoint okOracles "Solve" "hw.pdf" [1, 2] initSt).2.fs.files
      "hw.pdf" = none :=
  text_file_success_response okOracles "Solve" "hw.pdf" [1, 2] initSt
    "What is 2+2?" "4" rfl rfl rfl

/-- C2: on every exit path of `/text-file/` (normal return, or a failure of
the write, the conversion, or the model call), the `finally` cleanup runs:
the request's temporary file is absent from the final state, and if the
scratch directory ended up empty it was removed. -/
theorem text_file_cleanup_always (o : Oracles) (prompt filename : String)
    (bytes : List Nat) (s : St) :
    lookupFile (text_file_endpoint o prompt filename bytes s).2.fs.files filename = none ∧
    ((text_file_endpoint o prompt filename bytes s).2.fs.files = [] →
      (text_file_endpoint o prompt filename bytes s).2.fs.present = false) := by
  cases hw : o.writeErr with
  | some e =>
    simp only [text_file_endpoint, hw]
    exact cleanup_spec _ _ rfl
  | none =>
    cases hc : o.convert (tempDirName ++ "/" ++ filename) with
    | error e =>
      simp only [text_file_endpoint, extract_markdown_from_pdf, writeFile,
        mkdirExistOk, hw, hc]
      exact cleanup_spec _ _ rfl
    | ok md =>
      cases hm : o.chat defaultModel [Message.mk "user" (fullPrompt prompt md)] with
      | error e =>
        simp only [text_file_endpoint, extract_markdown_from_pdf,
          generate_text_file, writeFile, mkdirExistOk, hw, hc, hm]
        exact cleanup_spec _ _ rfl
      | ok sol =>
        simp only [text_file_endpoint, extract_markdown_from_pdf,
          generate_text_file, writeFile, mkdirExistOk, hw, hc, hm]
        exact cleanup_spec _ _ rfl

/-- Witness for C2 at a concrete request leaving an empty scratch directory. -/
theorem text_file_cleanup_always_witness :
    lookupFile (text_file_endpoint okOracles "p" "a.pdf" [7] initSt).2.fs.files
      "a.pdf" = none ∧
    (text_file_endpoint okOracles "p" "a.pdf" [7] initSt).2.fs.present = false :=
  ⟨(text_file_cleanup_always okOracles "p" "a.pdf" [7] initSt).1,
   (text_file_cleanup_always okOracles "p" "a.pdf" [7] initSt).2 (by decide)⟩

/-- C4: a document-conversion failure on `/text-file/` yields
`HTTPException(500, ...)` whose detail contains the underlying error text,
and the error is translated into an HTTP response rather than propagating
as an unhandled exception. -/
theorem conversion_failure_http500 (o : Oracles) (prompt filename : String)
    (bytes : List Nat) (s : St) (e : String)
    (hw : o.writeErr = none)
    (hc : o.convert (tempDirName ++ "/" ++ filename) = Except.error e) :
    (text_file_endpoint o prompt filename bytes s).1 =
      Response.httpException 500 ("Error processing PDF with docling: " ++ e) ∧
    e.data <:+: ("Error processing PDF with docling: " ++ e).data ∧
    (text_file_endpoint o prompt filename bytes s).1 ≠ Response.serverError := by
  have h1 : (text_file_endpoint o prompt filename bytes s).1 =
      Response.httpException 500 ("Error processing PDF with docling: " ++ e) := by
    simp only [text_file_endpoint, extract_markdown_from_pdf, hw, hc]
  refine ⟨h1, ⟨"Error processing PDF with docling: ".data, [], ?_⟩, ?_⟩
  · simp [String.data_append]
  · rw [h1]; simp

/-- Witness for C4 at a concrete converter failure. -/
theorem conversion_failure_http500_witness :
    (text_file_endpoint convFailOracles "p" "bad.png" [0] initSt).1 =
      Response.httpException 500
        ("Error processing PDF with docling: " ++ "Invalid PDF header") ∧
    "Invalid PDF header".data <:+:
      ("Error processing PDF with docling: " ++ "Invalid PDF header").data ∧
    (text_file_endpoint convFailOracles "p" "bad.png" [0] initSt).1 ≠
      Response.serverError :=
  conversion_failure_http500 convFailOracles "p" "bad.png" [0] initSt
    "Invalid PDF header" rfl rfl

/-- C3 counterexample: on `/text/` an unreachable model endpoint does not
produce a detail message referencing the connection failure.  The handler's
chat call is not wrapped in try/except, so the client gets the framework's
generic 500 whose fixed detail `Internal Server Error` does not contain the
underlying error text `connection refused`. -/
theorem text_unreachable_generic_500 :
    (text_endpoint refusedOracles "p" initSt).1 = Response.serverError ∧
    Response.detail (text_endpoint refusedOracles "p" initSt).1 =
      some "Internal Server Error" ∧
    ¬ ("connection refused".data <:+: "Internal Server Error".data) := by
  refine ⟨rfl, rfl, ?_⟩
  decide

/-- C3 amended: an unreachable model endpoint yields HTTP 500 with a detail
referencing the connection failure on `/text-file/` (whose model call is
wrapped in try/except), while on `/text/` the failure surfaces as an
unhandled exception, i.e. a generic 500 without the underlying message. -/
theorem unreachable_model_behavior (o : Oracles) (e prompt filename md : String)
    (bytes : List Nat) (s : St)
    (hw : o.writeErr = none)
    (hc : o.convert (tempDirName ++ "/" ++ filename) = Except.ok md)
    (hm : ∀ m msgs, o.chat m msgs = Except.error e) :
    (text_file_endpoint o prompt filename bytes s).1 =
      Response.httpException 500 ("Error interacting with Ollama: " ++ e) ∧
    e.data <:+: ("Error interacting with Ollama: " ++ e).data ∧
    (text_endpoint o prompt s).1 = Response.serverError := by
  refine ⟨?_, ⟨"Error interacting with Ollama: ".data, [], ?_⟩, ?_⟩
  · simp only [text_file_endpoint, extract_markdown_from_pdf, generate_text_file,
      hw, hc, hm]
  · simp [String.data_append]
  · simp only [text_endpoint, hm]

/-- Witness for the amended C3 at a concrete connection failure. -/
theorem unreachable_model_behavior_witness :
    (text_file_endpoint refusedOracles "p" "f.pdf" [1] initSt).1 =
      Response.httpException 500
        ("Error interacting with Ollama: " ++ "connection refused") ∧
    "connection refused".data <:+:
      ("Error interacting with Ollama: " ++ "connection refused").data ∧
    (text_endpoint refusedOracles "p" initSt).1 = Response.serverError :=
  unreachable_model_behavior refusedOracles "connection refused" "p" "f.pdf"
    "doc" [1] initSt rfl rfl (fun _ _ => rfl)

/-- Events emitted by `generate_text_file`: exactly one chat call, with one
user-role message whose content is `fullPrompt`. -/
theorem generate_text_file_events (o : Oracles) (s : St)
    (text user_prompt model_id : String) :
    (generate_text_file o s text user_prompt model_id).2.events =
      s.events ++
        [Event.chatEv model_id [Message.mk "user" (fullPrompt user_prompt text)]] := by
  cases h : o.chat model_id [Message.mk "user" (fullPrompt user_prompt text)] <;>
    simp [generate_text_file, h]

/-- C5 counterexample: there is no fixed delimiter string `D` such that the
content sent to the model is literally `prompt ++ D ++ text`: the f-string
also places whitespace before the prompt (and after the text), so the
content of the sent message starts with a newline, not with the prompt. -/
theorem chat_content_not_bare_concat :
    ¬ ∃ D : String, ∀ p t : String,
      (generate_text_file okOracles initSt t p defaultModel).2.events =
        [Event.chatEv defaultModel [Message.mk "user" (p ++ D ++ t)]] := by
  rintro ⟨D, h⟩
  have h1 := h "A" "B"
  rw [generate_text_file_events] at h1
  simp only [initSt, List.nil_append, List.cons.injEq, and_true,
    Event.chatEv.injEq, Message.mk.injEq, true_and] at h1
  have h2 := congrArg (fun z : String => z.data.head?) h1
  have hL : (fullPrompt "A" "B").data.head? = some '\n' := by decide
  have hR : ("A" ++ D ++ "B").data.head? = some 'A' := by
    show (("A" ++ D) ++ "B").data.head? = some 'A'
    rw [String.data_append, String.data_append]
    rfl
  simp only at h2
  rw [hL, hR] at h2
  exact absurd h2 (by decide)

/-- C5 amended: the model client sends exactly one message, of role `user`,
whose content is a fixed whitespace header, then the caller's prompt, then
the fixed delimiter, then the extracted text, then a fixed whitespace
trailer, in that order. -/
theorem chat_message_shape (o : Oracles) (s : St)
    (text user_prompt model_id : String) :
    (generate_text_file o s text user_prompt model_id).2.events =
      s.events ++ [Event.chatEv model_id
        [Message.mk "user"
          (promptHeader ++ user_prompt ++ docDelimiter ++ text ++ promptTrailer)]] :=
  generate_text_file_events o s text user_prompt model_id

/-- C7: `/text/` sends exactly one user-role message whose content is exactly
the submitted prompt, with the same fixed default model identifier that
`/text-file/` uses, and on success returns `{"solution": s}` with `s` the
assistant reply. -/
theorem text_endpoint_contract (o : Oracles) (prompt : String) (s : St) :
    (text_endpoint o prompt s).2.events =
      s.events ++ [Event.chatEv defaultModel [Message.mk "user" prompt]] ∧
    ∀ sol, o.chat defaultModel [Message.mk "user" prompt] = Except.ok sol →
      (text_endpoint o prompt s).1 = Response.json [("solution", sol)] := by
  constructor
  · cases h : o.chat "gemma3n:e2b" [Message.mk "user" prompt] <;>
      simp [text_endpoint, defaultModel, h]
  · intro sol hm
    have hm2 : o.chat "gemma3n:e2b" [Message.mk "user" prompt] = Except.ok sol := hm
    simp [text_endpoint, hm2]

/-- Witness for C7: the spec's concrete scenario, a prompt answered by `4`. -/
theorem text_endpoint_contract_witness :
    (text_endpoint okOracles "What is 2+2?" initSt).1 =
      Response.json [("solution", "4")] :=
  (text_endpoint_contract okOracles "What is 2+2?" initSt).2 "4" rfl

/-- C9: `/text/` performs no filesystem operation: the scratch directory
state is left exactly as it was, and the only event the handler emits is its
chat call, which is not a filesystem event. -/
theorem text_endpoint_no_fs_ops (o : Oracles) (prompt : String) (s : St) :
    (text_endpoint o prompt s).2.fs = s.fs ∧
    (text_endpoint o prompt s).2.events =
      s.events ++ [Event.chatEv defaultModel [Message.mk "user" prompt]] ∧
    Event.isFs (Event.chatEv defaultModel [Message.mk "user" prompt]) = false := by
  refine ⟨?_, ?_, rfl⟩ <;>
    cases h : o.chat "gemma3n:e2b" [Message.mk "user" prompt] <;>
      simp [text_endpoint, defaultModel, h]

theorem unlinkIfExists_events (s : St) (n : String) :
    ∃ t, (unlinkIfExists s n).events = s.events ++ t := by
  unfold unlinkIfExists
  by_cases h : (lookupFile s.fs.files n).isSome
  · exact ⟨[Event.unlinkEv n], by simp [h]⟩
  · exact ⟨[], by simp [h]⟩

theorem rmdirIfEmpty_events (s : St) :
    ∃ t, (rmdirIfEmpty s).events = s.events ++ t := by
  unfold rmdirIfEmpty
  by_cases h : s.fs.present = true ∧ s.fs.files = []
  · exact ⟨[Event.rmdirEv], by simp [h]⟩
  · exact ⟨[], by simp [h]⟩

theorem cleanup_events (s : St) (n : String) :
    ∃ t, (cleanup s n).events = s.events ++ t := by
  obtain ⟨t1, h1⟩ := unlinkIfExists_events s n
  obtain ⟨t2, h2⟩ := rmdirIfEmpty_events (unlinkIfExists s n)
  refine ⟨t1 ++ t2, ?_⟩
  unfold cleanup
  rw [h2, h1, List.append_assoc]

/-- C6: for every uploaded file, regardless of filename or byte content, and
for every prompt, the handler (when the write does not fail) performs the
same unconditional sequence: it makes the scratch directory, writes the
exact uploaded bytes to `temp_uploads/<filename>`, and hands that very path
to the converter — no file-type or prompt-content check branches anywhere
before those steps. -/
theorem upload_passed_through_unvalidated (o : Oracles) (prompt filename : String)
    (bytes : List Nat) (s : St) (hw : o.writeErr = none) :
    ∃ rest, (text_file_endpoint o prompt filename bytes s).2.events =
      s.events ++ Event.mkdirEv :: Event.writeEv filename bytes ::
        Event.convertEv (tempDirName ++ "/" ++ filename) :: rest := by
  cases hc : o.convert (tempDirName ++ "/" ++ filename) with
  | error e =>
    have hrun : (text_file_endpoint o prompt filename bytes s).2 =
        cleanup ((extract_markdown_from_pdf o (writeFile (mkdirExistOk s) filename bytes)
          (tempDirName ++ "/" ++ filename)).2) filename := by
      simp only [text_file_endpoint, extract_markdown_from_pdf, hw, hc]
    have hev : ((extract_markdown_from_pdf o (writeFile (mkdirExistOk s) filename bytes)
        (tempDirName ++ "/" ++ filename)).2).events =
        s.events ++ [Event.mkdirEv, Event.writeEv filename bytes,
          Event.convertEv (tempDirName ++ "/" ++ filename)] := by
      simp [extract_markdown_from_pdf, writeFile, mkdirExistOk, hc]
    obtain ⟨t, ht⟩ := cleanup_events
      ((extract_markdown_from_pdf o (writeFile (mkdirExistOk s) filename bytes)
        (tempDirName ++ "/" ++ filename)).2) filename
    refine ⟨t, ?_⟩
    rw [hrun, ht, hev]
    simp
  | ok md =>
    have hrun : (text_file_endpoint o prompt filename bytes s).2 =
        cleanup ((generate_text_file o
          ((extract_markdown_from_pdf o (writeFile (mkdirExistOk s) filename bytes)
            (tempDirName ++ "/" ++ filename)).2) md prompt defaultModel).2) filename := by
      cases hm : o.chat defaultModel [Message.mk "user" (fullPrompt prompt md)] <;>
        simp only [text_file_endpoint, extract_markdown_from_pdf, generate_text_file,
          hw, hc, hm]
    have hev : ((generate_text_file o
        ((extract_markdown_from_pdf o (writeFile (mkdirExistOk s) filename bytes)
          (tempDirName ++ "/" ++ filename)).2) md prompt defaultModel).2).events =
        s.events ++ [Event.mkdirEv, Event.writeEv filename bytes,
          Event.convertEv (tempDirName ++ "/" ++ filename),
          Event.chatEv defaultModel [Message.mk "user" (fullPrompt prompt md)]] := by
      rw [generate_text_file_events]
      simp [extract_markdown_from_pdf, writeFile, mkdirExistOk, hc]
    obtain ⟨t, ht⟩ := cleanup_events
      ((generate_text_file o
        ((extract_markdown_from_pdf o (writeFile (mkdirExistOk s) filename bytes)
          (tempDirName ++ "/" ++ filename)).2) md prompt defaultModel).2) filename
    refine ⟨Event.chatEv defaultModel [Message.mk "user" (fullPrompt prompt md)] :: t, ?_⟩
    rw [hrun, ht, hev]
    simp

/-- Witness for C6 at a concrete non-PDF upload with an arbitrary prompt. -/
theorem upload_passed_through_unvalidated_witness :
    ∃ rest, (text_file_endpoint okOracles "" "notes.txt" [255, 0] initSt).2.events =
      initSt.events ++ Event.mkdirEv :: Event.writeEv "notes.txt" [255, 0] ::
        Event.convertEv (tempDirName ++ "/" ++ "notes.txt") :: rest :=
  upload_passed_through_unvalidated okOracles "" "notes.txt" [255, 0] initSt rfl

/-- C8: a request missing the required `prompt` form field is rejected, on
either route, with the framework-level 422 validation response, not a 500. -/
theorem missing_prompt_yields_422 (o : Oracles) (r : Route) (req : FormRequest)
    (s : St) (h : req.fields.find? (fun p => p.1 == "prompt") = none) :
    (dispatch o r req s).1 = Response.validationError ∧
    Response.status (dispatch o r req s).1 = 422 ∧
    Response.status (dispatch o r req s).1 ≠ 500 := by
  have h1 : (dispatch o r req s).1 = Response.validationError := by
    cases r <;> simp [dispatch, h]
  exact ⟨h1, by rw [h1]; rfl, by rw [h1]; decide⟩

/-- Witness for C8 at a concrete request carrying only an unrelated field. -/
theorem missing_prompt_yields_422_witness :
    (dispatch okOracles Route.text
        { fields := [("x", "y")], fileField := none } initSt).1 =
      Response.validationError ∧
    Response.status (dispatch okOracles Route.text
        { fields := [("x", "y")], fileField := none } initSt).1 = 422 ∧
    Response.status (dispatch okOracles Route.text
        { fields := [("x", "y")], fileField := none } initSt).1 ≠ 500 :=
  missing_prompt_yields_422 okOracles Route.text
    { fields := [("x", "y")], fileField := none } initSt rfl

/-- C10: the cleanup step touches at most the request's own temporary file —
every other filename resolves to exactly the same contents after cleanup as
before — and it removes the scratch directory only when the directory has no
entries at all. -/
theorem cleanup_frame (s : St) (name : String) :
    (∀ n, n ≠ name →
      lookupFile (cleanup s name).fs.files n = lookupFile s.fs.files n) ∧
    (s.fs.present = true → (cleanup s name).fs.present = false →
      (cleanup s name).fs.files = []) := by
  constructor
  · intro n hn
    unfold cleanup rmdirIfEmpty
    by_cases h2 : (unlinkIfExists s name).fs.present = true ∧
        (unlinkIfExists s name).fs.files = []
    · have hu : lookupFile (unlinkIfExists s name).fs.files n =
          lookupFile s.fs.files n := by
        unfold unlinkIfExists
        by_cases h1 : (lookupFile s.fs.files name).isSome
        · simp [h1, lookupFile_filter_ne _ _ _ hn]
        · simp [h1]
      rw [← hu, h2.2]
      simp [h2, lookupFile]
    · simp only [h2, if_neg, reduceIte]
      unfold unlinkIfExists
      by_cases h1 : (lookupFile s.fs.files name).isSome
      · simp [h1, lookupFile_filter_ne _ _ _ hn]
      · simp [h1]
  · intro hp hpost
    unfold cleanup rmdirIfEmpty at hpost ⊢
    by_cases h2 : (unlinkIfExists s name).fs.present = true ∧
        (unlinkIfExists s name).fs.files = []
    · simp [h2]
    · simp only [h2, if_neg, reduceIte] at hpost
      rw [unlinkIfExists_present] at hpost
      exact absurd hpost (by simp [hp])

/-- Witness for C10: cleaning up one request's file leaves another request's
same-directory file untouched, and a directory holding only the request's
own file is removed exactly because nothing is left in it. -/
theorem cleanup_frame_witness :
    lookupFile (cleanup twoFileSt "mine.pdf").fs.files "other.pdf" =
      lookupFile twoFileSt.fs.files "other.pdf" ∧
    (cleanup oneFileSt "mine.pdf").fs.files = [] :=
  ⟨(cleanup_frame twoFileSt "mine.pdf").1 "other.pdf" (by decide),
   (cleanup_frame oneFileSt "mine.pdf").2 rfl (by decide)⟩

end LearnSphere
